import Mathlib

/-!
Verification of the portal backend of nativefiledialog-extended
(src/nfd_portal.cpp): a shallow embedding in Lean 4 of the open-file
dialog core (token generator, address builder, request encoder,
subscription manager, response decoder, locator resolver, and the
orchestrator's receive loop), with theorems settling the spec claims.

Modelling conventions:
- C strings are `List Char` (null-free char data; the terminating null is
  implicit at the end of the list, so "reading the terminator" of a string
  corresponds to reaching `[]`).
- D-Bus wire values are the inductive `WireVal`.
- The process-wide error slot (err_ptr, set by NFDi_SetError) is threaded
  explicitly as an `Option String` holding the human-readable message.
- The entropy source (getrandom) is a finite trace of read outcomes; an
  exhausted trace behaves like a persistently failing source.
-/

set_option autoImplicit false

namespace NfdPortal

/-- Char data of a string literal (C string without its terminating null). -/
def chars (s : String) : List Char := s.data

/-- The nfdresult_t values from nfd.h used by this translation unit. -/
inductive nfdresult where
  | NFD_OKAY
  | NFD_CANCEL
  | NFD_ERROR
  deriving DecidableEq, Repr

/-! ## Token Generator (Generate64RandomChars, nfd_portal.cpp lines 628-647) -/

/-- One outcome of a getrandom(buf, amount, 0) call: some bytes delivered,
a transient EINTR interruption, or a non-EINTR failure. -/
inductive ReadResult where
  | ok (bytes : List Nat)
  | eintr
  | fail
  deriving DecidableEq, Repr

/-- Encoding of one random byte into two output characters, as in the source:
out++ = 'A' + (buf[i] & 15); out++ = 'A' + (buf[i] >> 4).
Bytes are Nats reduced mod 256 (unsigned char). -/
def encodeByte (b : Nat) : List Char :=
  [Char.ofNat (65 + b % 16), Char.ofNat (65 + b % 256 / 16)]

/-- The while(amount > 0) loop of Generate64RandomChars. `amount` is the
number of random bytes still wanted. Each trace element is what the next
getrandom call returns; getrandom never returns more bytes than requested,
which the model enforces with List.take. An empty trace (no further data
obtainable) stops the loop like a failing read, returning what was
generated so far. -/
def genLoop : Nat → List ReadResult → List Char
  | _, [] => []
  | amount, r :: rest =>
    if amount = 0 then []
    else
      match r with
      | .eintr => genLoop amount rest
      | .fail => []
      | .ok bs =>
        ((bs.take amount).map encodeByte).flatten ++
          genLoop (amount - (bs.take amount).length) rest

/-- Generate64RandomChars: requests 32 random bytes and expands each into
two characters, for up to 64 output characters. -/
def Generate64RandomChars (trace : List ReadResult) : List Char :=
  genLoop 32 trace

/-- The number of requested bytes still missing when the loop stops
(0 means the full 64 characters were produced). -/
def residualAmount : Nat → List ReadResult → Nat
  | amount, [] => amount
  | amount, r :: rest =>
    if amount = 0 then 0
    else
      match r with
      | .eintr => residualAmount amount rest
      | .fail => amount
      | .ok bs => residualAmount (amount - (bs.take amount).length) rest

/-- The advertised token alphabet [A-Za-z0-9_]. -/
def isTokenChar (c : Char) : Bool :=
  ('A' ≤ c && c ≤ 'Z') || ('a' ≤ c && c ≤ 'z') || ('0' ≤ c && c ≤ '9') || c = '_'

/-- The range the generator actually emits: 'A'..'P'. -/
def inAtoP (c : Char) : Bool :=
  'A' ≤ c && c ≤ 'P'

/-! ## Address Builder (MakeUniqueObjectPath, lines 649-674) -/

/-- The copy template of the source (lines 74-80): writes [begin,end) after
the output pointer. The output buffer is the accumulated list. -/
def copyChars : List Char → List Char → List Char
  | [], out => out
  | c :: rest, out => copyChars rest (out ++ [c])

/-- The transform template of the source (lines 82-88). -/
def transformChars (callback : Char → Char) : List Char → List Char → List Char
  | [], out => out
  | c :: rest, out => transformChars callback rest (out ++ [callback c])

def STR_RESPONSE_HANDLE_HEAD : List Char :=
  chars "/org/freedesktop/portal/desktop/request/"

/-- The sender adjustment at line 657-658: if (*sender == ':') ++sender. -/
def stripLeadingColon : List Char → List Char
  | ':' :: rest => rest
  | l => l

/-- The lambda at line 668: ch != '.' ? ch : '_'. -/
def sanitizeSenderChar (ch : Char) : Char :=
  if ch ≠ '.' then ch else '_'

/-- MakeUniqueObjectPath: builds
"/org/freedesktop/portal/desktop/request/SENDER/TOKEN". The first component
is the whole path; the second is the token part that handle_token_ptr is
made to point at (the suffix after the final '/'). -/
def MakeUniqueObjectPath (uniqueName : List Char) (trace : List ReadResult) :
    List Char × List Char :=
  let sender := stripLeadingColon uniqueName
  let path0 := copyChars STR_RESPONSE_HANDLE_HEAD []
  let path1 := transformChars sanitizeSenderChar sender path0
  let token := Generate64RandomChars trace
  (path1 ++ '/' :: token, token)

/-! ## D-Bus wire values

A self-describing value as held by a DBusMessageIter. Containers carry
their element list; a variant carries its single payload. -/

inductive WireVal where
  | str (s : List Char)
  | u32 (n : Nat)
  | boolean (b : Bool)
  | objectPath (p : List Char)
  | arr (elems : List WireVal)
  | tuple (elems : List WireVal)
  | dictEntry (elems : List WireVal)
  | variant (v : WireVal)

/-! ## Response Decoder (ReadDictImpl / ReadDict, lines 199-252) -/

/-- A dictionary-entry callback: takes the unwrapped variant payload, the
current error slot and the captured state, and returns the nfdresult
together with the updated error slot and state. -/
def DictHandler (σ : Type) : Type :=
  WireVal → Option String → σ → nfdresult × Option String × σ

/-- ReadDictImpl: compare the entry key against the candidate keys in order
and run the first matching callback; with no candidates left, return
NFD_OKAY (the entry is skipped). -/
def ReadDictImpl {σ : Type} (key : List Char) (v : WireVal) (e : Option String) (s : σ) :
    List (List Char × DictHandler σ) → nfdresult × Option String × σ
  | [] => (.NFD_OKAY, e, s)
  | (candidate_key, candidate_callback) :: args =>
    if key = candidate_key then candidate_callback v e s
    else ReadDictImpl key v e s args

/-- The while loop of ReadDict (lines 228-250) over the recursed array
elements. A non-dict-entry element ends the loop with NFD_OKAY (the loop
condition fails); each dict entry must start with a string key, have a
second element, and that element must be a variant. -/
def readDictEntriesLoop {σ : Type} (handlers : List (List Char × DictHandler σ)) :
    List WireVal → Option String → σ → nfdresult × Option String × σ
  | [], e, s => (.NFD_OKAY, e, s)
  | el :: rest, e, s =>
    match el with
    | .dictEntry parts =>
      match parts with
      | .str key :: parts2 =>
        match parts2 with
        | [] =>
          (.NFD_ERROR,
            some "D-Bus response signal dict entry is missing one or more arguments.", s)
        | v2 :: _ =>
          match v2 with
          | .variant payload =>
            match ReadDictImpl key payload e s handlers with
            | (.NFD_ERROR, e', s') => (.NFD_ERROR, e', s')
            | (_, e', s') => readDictEntriesLoop handlers rest e' s'
          | _ =>
            (.NFD_ERROR,
              some "D-Bus response signal dict entry value is not a variant.", s)
      | _ =>
        (.NFD_ERROR,
          some "D-Bus response signal dict entry does not start with a string.", s)
    | _ => (.NFD_OKAY, e, s)

/-- ReadDict: the element under the iterator must be an array; then iterate
its dict entries. -/
def ReadDict {σ : Type} (v : WireVal) (handlers : List (List Char × DictHandler σ))
    (e : Option String) (s : σ) : nfdresult × Option String × σ :=
  match v with
  | .arr elems => readDictEntriesLoop handlers elems e s
  | _ => (.NFD_ERROR, some "D-Bus response signal argument is not an array.", s)

/-- Modelled from the spec (section 4.5): the caller-supplied ordered
(key, handler) list is scanned for the first entry whose key equals the
dictionary key. -/
def firstMatchingHandler {σ : Type} (key : List Char) :
    List (List Char × DictHandler σ) → Option (DictHandler σ)
  | [] => none
  | (k, cb) :: rest => if key = k then some cb else firstMatchingHandler key rest

/-- Modelled from the spec (section 4.5): iterate the (key, value) entries
of a decoded dictionary; unmatched keys are silently skipped, and the whole
decode short-circuits on a handler failure. Used as the specification that
ReadDict is proved to refine on well-formed dictionaries. -/
def readDictSpec {σ : Type} (handlers : List (List Char × DictHandler σ)) :
    List (List Char × WireVal) → Option String → σ → nfdresult × Option String × σ
  | [], e, s => (.NFD_OKAY, e, s)
  | (k, v) :: rest, e, s =>
    match firstMatchingHandler k handlers with
    | none => readDictSpec handlers rest e s
    | some cb =>
      match cb v e s with
      | (.NFD_ERROR, e', s') => (.NFD_ERROR, e', s')
      | (_, e', s') => readDictSpec handlers rest e' s'

/-- Well-formedness of a dictionary's element list: every element is a dict
entry of the wire shape (string key, variant value). -/
def wfDictEntries : List WireVal → Bool
  | [] => true
  | .dictEntry [.str _, .variant _] :: rest => wfDictEntries rest
  | _ => false

/-- The (key, value) pairs of a well-formed dictionary element list. -/
def kvsOf : List WireVal → List (List Char × WireVal)
  | .dictEntry (.str k :: .variant p :: _) :: rest => (k, p) :: kvsOf rest
  | _ => []

/-- The uris lambda of ReadResponseParamsSingle (lines 284-297): the value
must be an array whose first element is a string; that string becomes the
extracted file. -/
def urisHandler : DictHandler (Option (List Char)) := fun v e f =>
  match v with
  | .arr elems =>
    match elems with
    | .str s :: _ => (.NFD_OKAY, e, some s)
    | _ => (.NFD_ERROR, some "D-Bus response signal URI sub iter is not an string.", f)
  | _ => (.NFD_ERROR, some "D-Bus response signal URI iter is not an array.", f)

/-- ReadResponseParamsSingle (lines 257-301). The message body is the list
of arguments; the error slot and the file slot are threaded explicitly
(the source writes file through a reference and leaves it untouched on
cancel and on the pre-dictionary error paths). -/
def ReadResponseParamsSingle (args : List WireVal) (e : Option String)
    (f : Option (List Char)) : nfdresult × Option String × Option (List Char) :=
  match args with
  | [] => (.NFD_ERROR, some "D-Bus response signal is missing one or more arguments.", f)
  | a1 :: rest =>
    match a1 with
    | .u32 resp_code =>
      if resp_code ≠ 0 then
        if resp_code = 1 then (.NFD_CANCEL, e, f)
        else (.NFD_ERROR, some "D-Bus file dialog interaction was ended abruptly.", f)
      else
        match rest with
        | [] =>
          (.NFD_ERROR, some "D-Bus response signal is missing one or more arguments.", f)
        | a2 :: _ =>
          match ReadDict a2 [(chars "uris", urisHandler)] e f with
          | (.NFD_ERROR, e', f') => (.NFD_ERROR, e', f')
          | (_, e', f') => (.NFD_OKAY, e', f')
    | _ => (.NFD_ERROR, some "D-Bus response signal argument is not a uint32.", f)

/-! ## Locator Resolver (AllocAndCopyFIlePath, lines 748-767) -/

def FILE_URI_SCHEME : List Char := chars "file://"

/-- The comparison loop of AllocAndCopyFIlePath: compare the expected
scheme characters one by one against the URI; reaching the end of the URI
means its terminating null mismatches the next scheme character. When the
whole scheme matches, the remainder (with its terminating null) is copied
to a fresh buffer and returned through outPath. -/
def allocCopyLoop (outPath : Option (List Char)) (e : Option String) :
    List Char → List Char → nfdresult × Option (List Char) × Option String
  | [], fileUri => (.NFD_OKAY, some fileUri, e)
  | _ :: _, [] =>
    (.NFD_ERROR, outPath,
      some "D-Bus freedesktop portal returned a URI that is not a file URI.")
  | p :: ps, c :: cs =>
    if p = c then allocCopyLoop outPath e ps cs
    else
      (.NFD_ERROR, outPath,
        some "D-Bus freedesktop portal returned a URI that is not a file URI.")

def AllocAndCopyFIlePath (fileUri : List Char) (outPath : Option (List Char))
    (e : Option String) : nfdresult × Option (List Char) × Option String :=
  allocCopyLoop outPath e FILE_URI_SCHEME fileUri

/-! ## Subscription Manager (DBusSignalSubscriptionHandler, lines 676-746) -/

inductive BusEvent where
  | addMatch (rule : List Char)
  | removeMatch (rule : List Char)
  deriving DecidableEq, Repr

/-- The bus transport as seen by the subscription manager: whether
dbus_bus_add_match accepts a rule, the dbus_err.message text produced when
it does not, the set of registered match rules, and a log of the add/remove
calls issued. -/
structure Bus where
  accepts : List Char → Bool
  failMessage : String
  rules : List (List Char)
  log : List BusEvent

/-- The manager's only data member: char* sub_cmd (null when no match rule
string is held). -/
structure SubscriptionState where
  sub_cmd : Option (List Char)
  deriving DecidableEq, Repr

def STR_RESPONSE_SUBSCRIPTION_PATH_1 : List Char :=
  chars "type='signal',sender='org.freedesktop.portal.Desktop',path='"

def STR_RESPONSE_SUBSCRIPTION_PATH_2 : List Char :=
  chars "',interface='org.freedesktop.portal.Request',member='Response',destination='"

def STR_RESPONSE_SUBSCRIPTION_PATH_3 : List Char :=
  chars "'"

/-- MakeResponseSubscriptionPath (lines 724-745): the five copy calls in
sequence. -/
def MakeResponseSubscriptionPath (handle_path unique_name : List Char) : List Char :=
  copyChars STR_RESPONSE_SUBSCRIPTION_PATH_3
    (copyChars unique_name
      (copyChars STR_RESPONSE_SUBSCRIPTION_PATH_2
        (copyChars handle_path
          (copyChars STR_RESPONSE_SUBSCRIPTION_PATH_1 []))))

/-- Unsubscribe (lines 701-709): remove the held match rule from the bus,
free sub_cmd and null it; the local DBusError is freed without inspection,
so a remove failure never reaches the error slot. -/
def Unsubscribe (h : SubscriptionState) (bus : Bus) (e : Option String) :
    SubscriptionState × Bus × Option String :=
  let rule := h.sub_cmd.getD []
  (⟨none⟩,
    { bus with
        rules := bus.rules.erase rule,
        log := bus.log ++ [.removeMatch rule] },
    e)

/-- Subscribe (lines 686-699): unsubscribe any previous rule first, store
the new rule in sub_cmd, then dbus_bus_add_match; on a bus error the
transport's message is moved into the error slot and NFD_ERROR is
returned (sub_cmd keeps the new rule). -/
def Subscribe (uniqueName : List Char) (h : SubscriptionState) (bus : Bus)
    (e : Option String) (handle_path : List Char) :
    nfdresult × SubscriptionState × Bus × Option String :=
  let (_, bus1, e1) :=
    if h.sub_cmd.isSome then Unsubscribe h bus e else (h, bus, e)
  let rule := MakeResponseSubscriptionPath handle_path uniqueName
  let h2 : SubscriptionState := ⟨some rule⟩
  if bus1.accepts rule then
    (.NFD_OKAY, h2,
      { bus1 with
          rules := bus1.rules ++ [rule],
          log := bus1.log ++ [.addMatch rule] },
      e1)
  else
    (.NFD_ERROR, h2,
      { bus1 with log := bus1.log ++ [.addMatch rule] },
      some bus.failMessage)
  -- the manager state after the optional unsubscribe is superseded by h2,
  -- exactly as the source immediately overwrites sub_cmd with the new rule

/-- A predicate naming the spec's Unsubscribed state in terms of the
manager's own representation: the destructor and Subscribe both test
sub_cmd against null to decide whether a subscription is held. -/
def Unsubscribed (h : SubscriptionState) : Prop :=
  h.sub_cmd = none

/-! ## Request Encoder (AppendOpenFileQueryDictEntryFilters, lines 126-175) -/

/-- The inner while loop of AppendOpenFileQueryDictEntryFilters, walking
one comma-separated extension spec. flt is the contents of
filter_list_tuple_iter and fsl the contents of filter_sublist_iter. Each
round opens filter_sublist_tuple_iter, but the source appends both the
uint32 0 tag and the extension string to filter_list_tuple_iter (lines 149
and 155/162), so the opened tuple stays empty; it is closed into the
sublist only on the non-final branch, because the final branch breaks out
of the loop (line 156) before the close at line 166. On the non-final
branch the source copies the segment into an alloca buffer without writing
the terminating null its comment calls for; the model takes the favorable
case in which the byte after the copy happens to be null, so the appended
string is exactly the segment. An empty spec would make the scan at lines
151-153 read past the string's terminator (undefined in C); the model
returns the terminator branch with an empty segment. -/
def filterSublistLoop : List Char → List WireVal → List WireVal → List WireVal × List WireVal
  | [], flt, fsl => (flt ++ [.u32 0] ++ [.str []], fsl)
  | c :: tl, flt, fsl =>
    let seg := c :: tl.takeWhile (fun ch => ch != ',')
    let scanRest := tl.dropWhile (fun ch => ch != ',')
    if scanRest = [] then (flt ++ [.u32 0] ++ [.str seg], fsl)
    else
      filterSublistLoop scanRest.tail (flt ++ [.u32 0] ++ [.str seg]) (fsl ++ [.tuple []])
termination_by spec _ _ => spec.length
decreasing_by
  have hle : ∀ (l : List Char), (l.dropWhile (fun ch => ch != ',')).length ≤ l.length := by
    intro l
    induction l with
    | nil => simp [List.dropWhile]
    | cons x xs ih =>
      rw [List.dropWhile_cons]
      split
      · exact Nat.le_trans ih (Nat.le_succ _)
      · exact Nat.le_refl _
  have h2 := hle tl
  have h3 : (tl.dropWhile (fun ch => ch != ',')).tail.length =
      (tl.dropWhile (fun ch => ch != ',')).length - 1 := List.length_tail _
  simp only [List.length_cons]
  omega

/-- One round of the for loop over filterList (lines 139-171): open the
(name, sublist) tuple, append the name, open the sublist, run the spec
scan, close the sublist into the tuple and the tuple into the list. -/
def encodeOneFilter (name : List Char) (spec : List Char) : WireVal :=
  let flt : List WireVal := [.str name]
  let fsl : List WireVal := []
  let (flt2, fsl2) := filterSublistLoop spec flt fsl
  .tuple (flt2 ++ [.arr fsl2])

/-- AppendOpenFileQueryDictEntryFilters: the dict entry appended to the
options array, keyed "filters", holding a variant declared as a(sa(us)). -/
def AppendOpenFileQueryDictEntryFilters
    (filterList : List (List Char × List Char)) : WireVal :=
  .dictEntry [.str (chars "filters"),
    .variant (.arr (filterList.map (fun f => encodeOneFilter f.1 f.2)))]

/-- Modelled from the spec (sections 4.3 and 6): one (type-tag, pattern)
entry of the declared (us) wire shape. -/
def decodeExtnEntry : WireVal → Option (Nat × List Char)
  | .tuple [.u32 t, .str p] => some (t, p)
  | _ => none

/-- Modelled from the spec: one (name, array of entries) filter group of
the declared (sa(us)) wire shape. -/
def decodeFilterGroup : WireVal → Option (List Char × List (Nat × List Char))
  | .tuple [.str name, .arr entries] =>
    (entries.mapM decodeExtnEntry).map (fun es => (name, es))
  | _ => none

/-- Modelled from the spec: decode the whole "filters" dict entry back to
filter groups, requiring exactly the declared a(sa(us)) wire shape. -/
def decodeFiltersClaimed (v : WireVal) :
    Option (List (List Char × List (Nat × List Char))) :=
  match v with
  | .dictEntry [.str k, .variant (.arr groups)] =>
    if k = chars "filters" then groups.mapM decodeFilterGroup else none
  | _ => none

/-! ## Dialog Orchestrator (NFD_OpenDialogN, lines 810-902) -/

/-- An incoming queued message: whether dbus_message_is_signal matches
"org.freedesktop.portal.Request" / "Response", and its body arguments. -/
structure Msg where
  isResponse : Bool
  args : List WireVal

/-- Result of draining the currently queued messages (the inner while of
lines 870-883): either ReadResponseParamsSingle returned a non-okay result
(which the operation returns at once), or the drain stopped with the rest
of the queue and the current error and file slots. -/
inductive DrainResult where
  | early (res : nfdresult) (e : Option String) (f : Option (List Char))
  | done (rest : List Msg) (e : Option String) (f : Option (List Char))

/-- The inner while loop: pop messages until the queue is empty; discard
non-Response messages; on a Response, read it and either return its
non-okay result or break out of the drain (leaving the rest queued). -/
def drainLoop : List Msg → Option String → Option (List Char) → DrainResult
  | [], e, f => .done [] e f
  | m :: queue, e, f =>
    if m.isResponse then
      match ReadResponseParamsSingle m.args e f with
      | (.NFD_OKAY, e', f') => .done queue e' f'
      | (res, e', f') => .early res e' f'
    else drainLoop queue e f

/-- Final outcomes of the open-dialog operation. blocked is the state in
which the receive loop has called dbus_connection_read_write again with no
further traffic arriving: the operation is still waiting, unboundedly. -/
inductive DialogOutcome where
  | resolved (path : List Char)
  | cancel
  | failed
  | blocked
  deriving DecidableEq, Repr

/-- The tail of NFD_OpenDialogN (lines 892-899): run the Locator Resolver
on the extracted URI. -/
def finishResolve (uri : List Char) (e : Option String) : DialogOutcome × Option String :=
  match AllocAndCopyFIlePath uri none e with
  | (.NFD_OKAY, some p, e') => (.resolved p, e')
  | (_, _, e') => (.failed, e')

/-- The receive loop of NFD_OpenDialogN (lines 868-890) followed by path
resolution. queue is the current inbound queue; batches are the message
groups delivered by successive dbus_connection_read_write calls that
return more traffic; once the trace is exhausted, the next read_write
either reports disconnection (disconnects = true, after which the missing
file yields the no-reply error) or keeps blocking (the blocked outcome). -/
def awaitResponse (queue : List Msg) (batches : List (List Msg)) (disconnects : Bool)
    (e : Option String) (f : Option (List Char)) : DialogOutcome × Option String :=
  match drainLoop queue e f with
  | .early res e' _ =>
    match res with
    | .NFD_CANCEL => (.cancel, e')
    | _ => (.failed, e')
  | .done rest e' f' =>
    match f' with
    | some uri => finishResolve uri e'
    | none =>
      match batches with
      | b :: bs => awaitResponse (rest ++ b) bs disconnects e' none
      | [] =>
        if disconnects then
          (.failed, some "D-Bus freedesktop portal did not give us a reply.")
        else (.blocked, e')

/-- The reply inspection of NFD_OpenDialogN (lines 847-865): the blocking
call's reply must carry an object path; when it differs from the guessed
handle path, Subscribe is called on the server-returned path, its result
discarded, and the operation proceeds. NFD_OKAY here means the operation
continues into the receive loop. -/
def updateSubscriptionAfterReply (uniqueName : List Char) (h : SubscriptionState)
    (bus : Bus) (e : Option String) (handle_obj_path : List Char)
    (replyArgs : List WireVal) : nfdresult × SubscriptionState × Bus × Option String :=
  match replyArgs with
  | [] => (.NFD_ERROR, h, bus, some "D-Bus reply is missing an argument.")
  | .objectPath path :: _ =>
    if path ≠ handle_obj_path then
      match Subscribe uniqueName h bus e path with
      | (_, h', bus', e') => (.NFD_OKAY, h', bus', e')
    else (.NFD_OKAY, h, bus, e)
  | _ :: _ => (.NFD_ERROR, h, bus, some "D-Bus reply is not an object path.")

theorem encodeByte_length (b : Nat) : (encodeByte b).length = 2 := rfl

theorem encodeByte_all (p : Char → Bool)
    (hp : ∀ k, k < 16 → p (Char.ofNat (65 + k)) = true) (b : Nat) :
    (encodeByte b).all p = true := by
  have hlow : b % 16 < 16 := Nat.mod_lt _ (by decide)
  have hhigh : b % 256 / 16 < 16 := by
    have : b % 256 < 256 := Nat.mod_lt _ (by decide)
    omega
  simp only [encodeByte, List.all_cons, List.all_nil, Bool.and_true, Bool.and_eq_true]
  exact ⟨hp _ hlow, hp _ hhigh⟩

theorem genLoop_all (p : Char → Bool)
    (hp : ∀ k, k < 16 → p (Char.ofNat (65 + k)) = true)
    (amount : Nat) (trace : List ReadResult) :
    (genLoop amount trace).all p = true := by
  induction trace generalizing amount with
  | nil => rfl
  | cons r rest ih =>
    cases r with
    | eintr =>
      by_cases h : amount = 0 <;> simp [genLoop, h, ih]
    | fail =>
      by_cases h : amount = 0 <;> simp [genLoop, h]
    | ok bs =>
      by_cases h : amount = 0
      · simp [genLoop, h]
      · simp only [genLoop, h, if_false, List.all_append, Bool.and_eq_true]
        constructor
        · rw [List.all_eq_true]
          intro c hc
          rcases List.mem_flatten.mp hc with ⟨l, hl, hcl⟩
          rcases List.mem_map.mp hl with ⟨b, _, rfl⟩
          have hall := encodeByte_all p hp b
          rw [List.all_eq_true] at hall
          exact hall c hcl
        · exact ih _

theorem genLoop_fail_stops (amount : Nat) (rest : List ReadResult) :
    genLoop amount (.fail :: rest) = [] := by
  by_cases h : amount = 0 <;> simp [genLoop, h]

theorem genLoop_length (amount : Nat) (trace : List ReadResult) :
    (genLoop amount trace).length = 2 * (amount - residualAmount amount trace) := by
  induction trace generalizing amount with
  | nil => simp [genLoop, residualAmount]
  | cons r rest ih =>
    cases r with
    | eintr =>
      by_cases h : amount = 0 <;> simp [genLoop, residualAmount, h, ih]
    | fail =>
      by_cases h : amount = 0 <;> simp [genLoop, residualAmount, h]
    | ok bs =>
      by_cases h : amount = 0
      · simp [genLoop, residualAmount, h]
      · have htake : (bs.take amount).length ≤ amount := by
          simp
        have hres : residualAmount (amount - (bs.take amount).length) rest ≤
            amount - (bs.take amount).length := by
          clear ih htake
          generalize amount - (bs.take amount).length = a
          induction rest generalizing a with
          | nil => simp [residualAmount]
          | cons r' rest' ih' =>
            cases r' with
            | eintr =>
              by_cases ha : a = 0 <;> simp [residualAmount, ha, ih']
            | fail =>
              by_cases ha : a = 0 <;> simp [residualAmount, ha]
            | ok bs' =>
              by_cases ha : a = 0
              · simp [residualAmount, ha]
              · have := ih' (a - (bs'.take a).length)
                simp only [residualAmount, ha, if_false]
                omega
        simp only [genLoop, residualAmount, h, if_false, List.length_append,
          List.length_flatten, List.map_map]
        have hmap : ((bs.take amount).map (List.length ∘ encodeByte)).sum =
            2 * (bs.take amount).length := by
          induction bs.take amount with
          | nil => simp
          | cons b bs' ih2 => simp [encodeByte_length, ih2]; ring
        rw [hmap, ih]
        omega

theorem residualAmount_le (amount : Nat) (trace : List ReadResult) :
    residualAmount amount trace ≤ amount := by
  induction trace generalizing amount with
  | nil => simp [residualAmount]
  | cons r rest ih =>
    cases r with
    | eintr =>
      by_cases h : amount = 0 <;> simp [residualAmount, h, ih]
    | fail =>
      by_cases h : amount = 0 <;> simp [residualAmount, h]
    | ok bs =>
      by_cases h : amount = 0
      · simp [residualAmount, h]
      · have := ih (amount - (bs.take amount).length)
        simp only [residualAmount, h, if_false]
        omega

theorem copyChars_eq (src out : List Char) : copyChars src out = out ++ src := by
  induction src generalizing out with
  | nil => simp [copyChars]
  | cons c rest ih => simp [copyChars, ih]

theorem transformChars_eq (callback : Char → Char) (src out : List Char) :
    transformChars callback src out = out ++ src.map callback := by
  induction src generalizing out with
  | nil => simp [transformChars]
  | cons c rest ih => simp [transformChars, ih]

theorem allocCopyLoop_eq (outPath : Option (List Char)) (e : Option String)
    (p uri : List Char) :
    allocCopyLoop outPath e p uri =
      if p.isPrefixOf uri
      then (.NFD_OKAY, some (uri.drop p.length), e)
      else (.NFD_ERROR, outPath,
        some "D-Bus freedesktop portal returned a URI that is not a file URI.") := by
  induction p generalizing uri with
  | nil => simp [allocCopyLoop, List.isPrefixOf]
  | cons a as ih =>
    cases uri with
    | nil => simp [allocCopyLoop, List.isPrefixOf]
    | cons b bs =>
      by_cases hab : a = b
      · subst hab
        simp [allocCopyLoop, List.isPrefixOf, ih]
      · simp [allocCopyLoop, List.isPrefixOf, hab]

/-- C8: for every entropy trace, every generated character lies in the
advertised alphabet [A-Za-z0-9_]; the output length is twice the number of
delivered bytes, hence exactly 64 whenever the source delivers all 32
requested bytes; an EINTR read is retried (it leaves the loop state
unchanged); and a non-EINTR failure stops the loop, returning only the
characters generated so far. -/
theorem c8_token_generator (trace : List ReadResult) :
    (Generate64RandomChars trace).all isTokenChar = true ∧
    (Generate64RandomChars trace).length = 2 * (32 - residualAmount 32 trace) ∧
    (residualAmount 32 trace = 0 → (Generate64RandomChars trace).length = 64) ∧
    (∀ (amount : Nat) (rest : List ReadResult), 0 < amount →
      genLoop amount (.eintr :: rest) = genLoop amount rest) ∧
    (∀ (bs : List Nat) (rest : List ReadResult),
      Generate64RandomChars (.ok bs :: .fail :: rest) =
        Generate64RandomChars [.ok bs]) := by
  refine ⟨genLoop_all _ (by decide) 32 trace, genLoop_length 32 trace, ?_, ?_, ?_⟩
  · intro h
    have := genLoop_length 32 trace
    rw [h] at this
    exact this
  · intro amount rest h
    simp only [genLoop]
    rw [if_neg (by omega)]
  · intro bs rest
    simp [Generate64RandomChars, genLoop, genLoop_fail_stops]

/-- Witness for C8 at a concrete trace that delivers all 32 bytes at once,
plus a concrete EINTR retry instance. -/
theorem c8_token_generator_witness :
    residualAmount 32 [ReadResult.ok (List.replicate 32 0)] = 0 ∧
    (Generate64RandomChars [ReadResult.ok (List.replicate 32 0)]).length = 64 ∧
    genLoop 32 [ReadResult.eintr] = genLoop 32 [] := by
  refine ⟨by decide, ?_, ?_⟩
  · exact (c8_token_generator [ReadResult.ok (List.replicate 32 0)]).2.2.1 (by decide)
  · exact (c8_token_generator [ReadResult.eintr]).2.2.2.1 32 [] (by decide)

/-- C10: every generated character lies in 'A'..'P' (each nibble is mapped
to 'A' plus its value), so the token never contains lowercase letters,
digits, underscores, or letters after 'P'; and this range is a strict
subset of the advertised alphabet (witnessed by 'z'). -/
theorem c10_token_actual_range (trace : List ReadResult) :
    (Generate64RandomChars trace).all inAtoP = true ∧
    (Generate64RandomChars trace).all (fun c =>
      !(('a' ≤ c && c ≤ 'z') || ('0' ≤ c && c ≤ '9') || c = '_' ||
        ('Q' ≤ c && c ≤ 'Z'))) = true ∧
    (∀ b : Nat, (encodeByte b).all inAtoP = true) ∧
    isTokenChar 'z' = true ∧ inAtoP 'z' = false := by
  refine ⟨genLoop_all _ (by decide) 32 trace, genLoop_all _ (by decide) 32 trace,
    ?_, by decide, by decide⟩
  intro b
  exact encodeByte_all _ (by decide) b

/-- C9: the callback path is the fixed handle prefix, then the identity
with its leading ':' stripped and every '.' rewritten to '_', then '/',
then the generated token; the sanitized identity segment contains no
literal '.'. -/
theorem c9_make_unique_object_path (uniqueName : List Char) (trace : List ReadResult) :
    (MakeUniqueObjectPath uniqueName trace).1 =
      STR_RESPONSE_HANDLE_HEAD ++
        ((stripLeadingColon uniqueName).map sanitizeSenderChar ++
          '/' :: (MakeUniqueObjectPath uniqueName trace).2) ∧
    ((stripLeadingColon uniqueName).map sanitizeSenderChar).all
      (fun c => c != '.') = true ∧
    (∀ rest : List Char, stripLeadingColon (':' :: rest) = rest) ∧
    (MakeUniqueObjectPath uniqueName trace).2 = Generate64RandomChars trace := by
  refine ⟨?_, ?_, fun rest => rfl, rfl⟩
  · simp [MakeUniqueObjectPath, copyChars_eq, transformChars_eq]
  · rw [List.all_eq_true]
    intro c hc
    rcases List.mem_map.mp hc with ⟨x, _, rfl⟩
    by_cases hx : x = '.' <;> simp [sanitizeSenderChar, hx]

/-- C2: the locator resolver succeeds exactly when the URI starts with the
literal scheme "file://", returning the remainder, and otherwise fails
with the not-a-file-URI message, leaving the output path untouched;
including the spec's two concrete examples. -/
theorem c2_locator_resolver (fileUri : List Char) (outPath : Option (List Char))
    (e : Option String) :
    AllocAndCopyFIlePath fileUri outPath e =
      (if FILE_URI_SCHEME.isPrefixOf fileUri
       then (.NFD_OKAY, some (fileUri.drop FILE_URI_SCHEME.length), e)
       else (.NFD_ERROR, outPath,
         some "D-Bus freedesktop portal returned a URI that is not a file URI.")) ∧
    AllocAndCopyFIlePath (chars "file:///tmp/a.txt") none none =
      (.NFD_OKAY, some (chars "/tmp/a.txt"), none) ∧
    AllocAndCopyFIlePath (chars "http://example.com/a.txt") none none =
      (.NFD_ERROR, none,
        some "D-Bus freedesktop portal returned a URI that is not a file URI.") := by
  refine ⟨allocCopyLoop_eq outPath e FILE_URI_SCHEME fileUri, by decide, by decide⟩

theorem ReadDictImpl_eq_dispatch {σ : Type} (key : List Char) (v : WireVal)
    (e : Option String) (s : σ) (handlers : List (List Char × DictHandler σ)) :
    ReadDictImpl key v e s handlers =
      match firstMatchingHandler key handlers with
      | none => (.NFD_OKAY, e, s)
      | some cb => cb v e s := by
  induction handlers with
  | nil => rfl
  | cons kv rest ih =>
    rcases kv with ⟨k, cb⟩
    by_cases hk : key = k
    · simp [ReadDictImpl, firstMatchingHandler, hk]
    · simp [ReadDictImpl, firstMatchingHandler, hk, ih]

theorem readDictEntriesLoop_wf {σ : Type} (handlers : List (List Char × DictHandler σ)) :
    ∀ elems : List WireVal, wfDictEntries elems = true →
    ∀ (e : Option String) (s : σ),
      readDictEntriesLoop handlers elems e s = readDictSpec handlers (kvsOf elems) e s := by
  intro elems
  induction elems with
  | nil => intro _ e s; rfl
  | cons el rest ih =>
    intro hwf e s
    cases el with
    | dictEntry parts =>
      cases parts with
      | nil => simp [wfDictEntries] at hwf
      | cons p1 parts2 =>
        cases p1 with
        | str k =>
          cases parts2 with
          | nil => simp [wfDictEntries] at hwf
          | cons v2 parts3 =>
            cases v2 with
            | variant payload =>
              cases parts3 with
              | nil =>
                have hrest : wfDictEntries rest = true := by
                  simpa [wfDictEntries] using hwf
                have hkv : kvsOf (WireVal.dictEntry
                    [.str k, .variant payload] :: rest) = (k, payload) :: kvsOf rest := rfl
                rw [hkv]
                simp only [readDictEntriesLoop, readDictSpec, ReadDictImpl_eq_dispatch]
                cases hfm : firstMatchingHandler k handlers with
                | none => exact ih hrest e s
                | some cb =>
                  show (match cb payload e s with
                        | (nfdresult.NFD_ERROR, e', s') => (nfdresult.NFD_ERROR, e', s')
                        | (_, e', s') => readDictEntriesLoop handlers rest e' s') =
                      (match cb payload e s with
                        | (nfdresult.NFD_ERROR, e', s') => (nfdresult.NFD_ERROR, e', s')
                        | (_, e', s') => readDictSpec handlers (kvsOf rest) e' s')
                  rcases hcb : cb payload e s with ⟨r, e2, s2⟩
                  cases r with
                  | NFD_ERROR => rfl
                  | NFD_OKAY => exact ih hrest e2 s2
                  | NFD_CANCEL => exact ih hrest e2 s2
              | cons _ _ => simp [wfDictEntries] at hwf
            | str _ => simp [wfDictEntries] at hwf
            | u32 _ => simp [wfDictEntries] at hwf
            | boolean _ => simp [wfDictEntries] at hwf
            | objectPath _ => simp [wfDictEntries] at hwf
            | arr _ => simp [wfDictEntries] at hwf
            | tuple _ => simp [wfDictEntries] at hwf
            | dictEntry _ => simp [wfDictEntries] at hwf
        | u32 _ => simp [wfDictEntries] at hwf
        | boolean _ => simp [wfDictEntries] at hwf
        | objectPath _ => simp [wfDictEntries] at hwf
        | arr _ => simp [wfDictEntries] at hwf
        | tuple _ => simp [wfDictEntries] at hwf
        | dictEntry _ => simp [wfDictEntries] at hwf
        | variant _ => simp [wfDictEntries] at hwf
    | str _ => simp [wfDictEntries] at hwf
    | u32 _ => simp [wfDictEntries] at hwf
    | boolean _ => simp [wfDictEntries] at hwf
    | objectPath _ => simp [wfDictEntries] at hwf
    | arr _ => simp [wfDictEntries] at hwf
    | tuple _ => simp [wfDictEntries] at hwf
    | variant _ => simp [wfDictEntries] at hwf

theorem readDictSpec_skips_all {σ : Type} (handlers : List (List Char × DictHandler σ))
    (kvs : List (List Char × WireVal))
    (hnone : ∀ kv ∈ kvs, firstMatchingHandler (σ := σ) kv.1 handlers = none)
    (e : Option String) (s : σ) :
    readDictSpec handlers kvs e s = (.NFD_OKAY, e, s) := by
  induction kvs with
  | nil => rfl
  | cons kv rest ih =>
    have h1 := hnone kv (List.mem_cons_self kv rest)
    rcases kv with ⟨k, v⟩
    simp only [readDictSpec, h1]
    exact ih (fun kv hkv => hnone kv (List.mem_cons_of_mem _ hkv))

/-- C6: on a well-formed dictionary, ReadDict behaves exactly as the spec
describes: it iterates the entries, runs the first handler whose key
matches on the unwrapped variant payload, silently skips unmatched keys,
and short-circuits on a handler error; a non-array argument fails
immediately with a structural-mismatch error. -/
theorem c6_read_dict_generic {σ : Type} (elems : List WireVal)
    (handlers : List (List Char × DictHandler σ)) (e : Option String) (s : σ)
    (hwf : wfDictEntries elems = true) :
    ReadDict (.arr elems) handlers e s = readDictSpec handlers (kvsOf elems) e s ∧
    (∀ (key : List Char) (v : WireVal),
      ReadDictImpl key v e s handlers =
        match firstMatchingHandler key handlers with
        | none => (.NFD_OKAY, e, s)
        | some cb => cb v e s) ∧
    (∀ v : WireVal, (∀ l, v ≠ .arr l) →
      ReadDict v handlers e s =
        (.NFD_ERROR, some "D-Bus response signal argument is not an array.", s)) := by
  refine ⟨readDictEntriesLoop_wf handlers elems hwf e s,
    fun key v => ReadDictImpl_eq_dispatch key v e s handlers, ?_⟩
  intro v hv
  cases v <;> first | exact absurd rfl (hv _) | rfl

/-- Witness for C6: the spec's example dictionary with keys uris and other
and a handler registered only for uris decodes successfully and yields the
first URI string. -/
theorem c6_read_dict_generic_witness :
    wfDictEntries
      [WireVal.dictEntry [.str (chars "uris"),
          .variant (.arr [.str (chars "file:///home/u/doc.txt")])],
        WireVal.dictEntry [.str (chars "other"), .variant (.u32 5)]] = true ∧
    ReadDict (.arr [WireVal.dictEntry [.str (chars "uris"),
          .variant (.arr [.str (chars "file:///home/u/doc.txt")])],
        WireVal.dictEntry [.str (chars "other"), .variant (.u32 5)]])
        [(chars "uris", urisHandler)] none none =
      readDictSpec [(chars "uris", urisHandler)]
        (kvsOf [WireVal.dictEntry [.str (chars "uris"),
            .variant (.arr [.str (chars "file:///home/u/doc.txt")])],
          WireVal.dictEntry [.str (chars "other"), .variant (.u32 5)]]) none none ∧
    ReadDict (.arr [WireVal.dictEntry [.str (chars "uris"),
          .variant (.arr [.str (chars "file:///home/u/doc.txt")])],
        WireVal.dictEntry [.str (chars "other"), .variant (.u32 5)]])
        [(chars "uris", urisHandler)] none none =
      (.NFD_OKAY, none, some (chars "file:///home/u/doc.txt")) := by
  refine ⟨rfl, ?_, rfl⟩
  exact (c6_read_dict_generic
    [WireVal.dictEntry [.str (chars "uris"),
        .variant (.arr [.str (chars "file:///home/u/doc.txt")])],
      WireVal.dictEntry [.str (chars "other"), .variant (.u32 5)]]
    [(chars "uris", urisHandler)] none none rfl).1

/-- C1: the numeric status at the head of the Response body determines the
outcome: status 1 is a cancellation with the error and file slots
untouched and no dictionary decode (the rest of the body is irrelevant);
any other nonzero status is an error with its own distinct message and no
dictionary decode; status 0 proceeds into the uris dictionary decode; and
end-to-end, a status-1 Response makes the operation cancel with no error
set. -/
theorem c1_response_status_dispatch (resp_code : Nat) (rest rest2 : List WireVal)
    (e : Option String) (f : Option (List Char)) :
    (resp_code = 1 →
      ReadResponseParamsSingle (.u32 resp_code :: rest) e f = (.NFD_CANCEL, e, f)) ∧
    (resp_code ≠ 0 → resp_code ≠ 1 →
      ReadResponseParamsSingle (.u32 resp_code :: rest) e f =
        (.NFD_ERROR, some "D-Bus file dialog interaction was ended abruptly.", f)) ∧
    (resp_code ≠ 0 →
      ReadResponseParamsSingle (.u32 resp_code :: rest) e f =
        ReadResponseParamsSingle (.u32 resp_code :: rest2) e f) ∧
    (∀ v2 : WireVal,
      ReadResponseParamsSingle (.u32 0 :: v2 :: rest) e f =
        match ReadDict v2 [(chars "uris", urisHandler)] e f with
        | (.NFD_ERROR, e', f') => (.NFD_ERROR, e', f')
        | (_, e', f') => (.NFD_OKAY, e', f')) ∧
    ("D-Bus file dialog interaction was ended abruptly." ∉
      ["D-Bus response signal is missing one or more arguments.",
       "D-Bus response signal argument is not a uint32.",
       "D-Bus response signal argument is not an array.",
       "D-Bus response signal dict entry does not start with a string.",
       "D-Bus response signal dict entry is missing one or more arguments.",
       "D-Bus response signal dict entry value is not a variant.",
       "D-Bus response signal URI iter is not an array.",
       "D-Bus response signal URI sub iter is not an string.",
       "D-Bus freedesktop portal returned a URI that is not a file URI.",
       "D-Bus freedesktop portal did not give us a reply."]) ∧
    awaitResponse [⟨true, [.u32 1]⟩] [] false none none = (.cancel, none) := by
  refine ⟨?_, ?_, ?_, fun v2 => rfl, by decide, rfl⟩
  · intro h1
    subst h1
    rfl
  · intro h0 h1
    simp [ReadResponseParamsSingle, h0, h1]
  · intro h0
    by_cases h1 : resp_code = 1
    · subst h1; rfl
    · simp [ReadResponseParamsSingle, h0, h1]

/-- Witness for C1 at concrete statuses 1, 2 and 0. -/
theorem c1_response_status_dispatch_witness :
    ReadResponseParamsSingle [.u32 1] none none = (.NFD_CANCEL, none, none) ∧
    ReadResponseParamsSingle [.u32 2] none none =
      (.NFD_ERROR, some "D-Bus file dialog interaction was ended abruptly.", none) ∧
    ReadResponseParamsSingle [.u32 2, .u32 7] none none =
      ReadResponseParamsSingle [.u32 2] none none := by
  refine ⟨(c1_response_status_dispatch 1 [] [] none none).1 rfl,
    (c1_response_status_dispatch 2 [] [] none none).2.1 (by decide) (by decide),
    (c1_response_status_dispatch 2 [.u32 7] [] none none).2.2.1 (by decide)⟩

theorem awaitResponse_single_okay_none (args : List WireVal) (d : Bool)
    (h : ReadResponseParamsSingle args none none = (.NFD_OKAY, none, none)) :
    awaitResponse [⟨true, args⟩] [] d none none =
      if d then (.failed, some "D-Bus freedesktop portal did not give us a reply.")
      else (.blocked, none) := by
  have hdrain : drainLoop [⟨true, args⟩] none none = .done [] none none := by
    show (match ReadResponseParamsSingle args none none with
          | (nfdresult.NFD_OKAY, e', f') => DrainResult.done [] e' f'
          | (res, e', f') => DrainResult.early res e' f') = DrainResult.done [] none none
    rw [h]
  unfold awaitResponse
  rw [hdrain]

/-- C3 counterexample: a Response with status 0 whose results dictionary
has no uris entry does not make the operation yield an error outcome: the
decode returns okay without a file, and the receive loop re-enters the
blocking wait (the blocked outcome), which is exactly the unbounded wait
the claim excludes. -/
theorem c3_missing_uris_counterexample :
    awaitResponse [⟨true, [.u32 0, .arr []]⟩] [] false none none = (.blocked, none) ∧
    ReadResponseParamsSingle [.u32 0, .arr []] none none = (.NFD_OKAY, none, none) := by
  exact ⟨rfl, rfl⟩

/-- C3 as amended: a present-but-empty uris array fails immediately with
the sub-iter error message; an absent uris entry leaves the decode okay
with no file written, so the response never yields success — the no-reply
error surfaces only when the transport reports disconnection, and
otherwise the loop keeps blocking. -/
theorem c3_no_uris_behavior (entries : List WireVal) (rest : List WireVal)
    (e : Option String) (hwf : wfDictEntries entries = true)
    (hnouris : (kvsOf entries).all (fun kv => kv.1 != chars "uris") = true) :
    ReadResponseParamsSingle (.u32 0 :: .arr entries :: rest) e none =
      (.NFD_OKAY, e, none) ∧
    awaitResponse [⟨true, .u32 0 :: .arr entries :: rest⟩] [] true none none =
      (.failed, some "D-Bus freedesktop portal did not give us a reply.") ∧
    awaitResponse [⟨true, .u32 0 :: .arr entries :: rest⟩] [] false none none =
      (.blocked, none) ∧
    ReadResponseParamsSingle
        (.u32 0 :: .arr [.dictEntry [.str (chars "uris"), .variant (.arr [])]] :: rest)
        e none =
      (.NFD_ERROR, some "D-Bus response signal URI sub iter is not an string.", none) := by
  have hskip : ∀ e0 : Option String,
      ReadResponseParamsSingle (.u32 0 :: .arr entries :: rest) e0 none =
        (.NFD_OKAY, e0, none) := by
    intro e0
    have hro : ReadDict (.arr entries) [(chars "uris", urisHandler)] e0
        (none : Option (List Char)) = (.NFD_OKAY, e0, none) := by
      show readDictEntriesLoop [(chars "uris", urisHandler)] entries e0 none = _
      rw [readDictEntriesLoop_wf _ entries hwf e0 none]
      apply readDictSpec_skips_all
      intro kv hkv
      have hne := List.all_eq_true.mp hnouris kv hkv
      simp only [bne_iff_ne, ne_eq] at hne
      simp [firstMatchingHandler, hne]
    show (match ReadDict (.arr entries) [(chars "uris", urisHandler)] e0
            (none : Option (List Char)) with
          | (nfdresult.NFD_ERROR, e', f') => (nfdresult.NFD_ERROR, e', f')
          | (_, e', f') => (nfdresult.NFD_OKAY, e', f')) = (.NFD_OKAY, e0, none)
    rw [hro]
  refine ⟨hskip e, ?_, ?_, rfl⟩
  · exact awaitResponse_single_okay_none _ true (hskip none)
  · exact awaitResponse_single_okay_none _ false (hskip none)

/-- Witness for C3's amended statement at a concrete dictionary holding
only an unrelated key. -/
theorem c3_no_uris_behavior_witness :
    wfDictEntries [WireVal.dictEntry [.str (chars "other"), .variant (.u32 5)]] = true ∧
    ReadResponseParamsSingle
        [.u32 0, .arr [WireVal.dictEntry [.str (chars "other"), .variant (.u32 5)]]]
        none none = (.NFD_OKAY, none, none) ∧
    awaitResponse
        [⟨true, [.u32 0,
          .arr [WireVal.dictEntry [.str (chars "other"), .variant (.u32 5)]]]⟩]
        [] true none none =
      (.failed, some "D-Bus freedesktop portal did not give us a reply.") := by
  refine ⟨rfl, ?_, ?_⟩
  · exact (c3_no_uris_behavior
      [WireVal.dictEntry [.str (chars "other"), .variant (.u32 5)]] [] none rfl rfl).1
  · exact (c3_no_uris_behavior
      [WireVal.dictEntry [.str (chars "other"), .variant (.u32 5)]] [] none rfl rfl).2.1

/-- C4: the filters dict entry the encoder actually produces for
[("Images","png,jpg,jpeg")] appends the uint32 tags and the pattern
strings to the outer (name, sublist) tuple instead of the inner (tag,
pattern) tuples, leaves the inner tuples empty (and drops the last one,
never closed), so the result is not the declared a(sa(us)) shape: the
spec-shaped decoder rejects it, while it accepts the well-formed encoding
the claim describes. -/
theorem c4_filters_encoding_bug :
    AppendOpenFileQueryDictEntryFilters [(chars "Images", chars "png,jpg,jpeg")] =
      .dictEntry [.str (chars "filters"),
        .variant (.arr [.tuple [.str (chars "Images"), .u32 0, .str (chars "png"),
          .u32 0, .str (chars "jpg"), .u32 0, .str (chars "jpeg"),
          .arr [.tuple [], .tuple []]]])] ∧
    decodeFiltersClaimed
        (AppendOpenFileQueryDictEntryFilters [(chars "Images", chars "png,jpg,jpeg")]) =
      none ∧
    decodeFiltersClaimed
        (.dictEntry [.str (chars "filters"),
          .variant (.arr [.tuple [.str (chars "Images"),
            .arr [.tuple [.u32 0, .str (chars "png")],
              .tuple [.u32 0, .str (chars "jpg")],
              .tuple [.u32 0, .str (chars "jpeg")]]]])]) =
      some [(chars "Images", [(0, chars "png"), (0, chars "jpg"), (0, chars "jpeg")])] := by
  have hloop : filterSublistLoop (chars "png,jpg,jpeg") [.str (chars "Images")] [] =
      ([.str (chars "Images"), .u32 0, .str (chars "png"), .u32 0, .str (chars "jpg"),
        .u32 0, .str (chars "jpeg")], [.tuple [], .tuple []]) := by
    simp +decide [filterSublistLoop, chars, List.dropWhile_cons, List.takeWhile_cons]
  have h1 : AppendOpenFileQueryDictEntryFilters
      [(chars "Images", chars "png,jpg,jpeg")] =
      .dictEntry [.str (chars "filters"),
        .variant (.arr [.tuple [.str (chars "Images"), .u32 0, .str (chars "png"),
          .u32 0, .str (chars "jpg"), .u32 0, .str (chars "jpeg"),
          .arr [.tuple [], .tuple []]]])] := by
    simp [AppendOpenFileQueryDictEntryFilters, encodeOneFilter, hloop]
  have hd : decodeFiltersClaimed
      (AppendOpenFileQueryDictEntryFilters
        [(chars "Images", chars "png,jpg,jpeg")]) = none := by
    rw [h1]
    rfl
  exact ⟨h1, hd, rfl⟩

theorem Subscribe_replaces (uniqueName : List Char) (h : SubscriptionState) (bus : Bus)
    (e : Option String) (handle_path : List Char) (oldRule : List Char)
    (hold : h.sub_cmd = some oldRule) :
    (Subscribe uniqueName h bus e handle_path).2.2.1.log =
      bus.log ++ [.removeMatch oldRule,
        .addMatch (MakeResponseSubscriptionPath handle_path uniqueName)] ∧
    (Subscribe uniqueName h bus e handle_path).2.1.sub_cmd =
      some (MakeResponseSubscriptionPath handle_path uniqueName) ∧
    (Subscribe uniqueName h bus e handle_path).2.2.1.rules =
      (if bus.accepts (MakeResponseSubscriptionPath handle_path uniqueName)
       then bus.rules.erase oldRule ++ [MakeResponseSubscriptionPath handle_path uniqueName]
       else bus.rules.erase oldRule) := by
  have hsome : h.sub_cmd.isSome = true := by rw [hold]; rfl
  have hgetD : h.sub_cmd.getD [] = oldRule := by rw [hold]; rfl
  by_cases hacc : bus.accepts (MakeResponseSubscriptionPath handle_path uniqueName)
  · simp [Subscribe, Unsubscribe, hsome, hgetD, hacc]
  · simp [Subscribe, Unsubscribe, hsome, hgetD, hacc]

/-- C5 counterexample: on a fresh manager whose bus rejects the add-match
call, Subscribe surfaces the error, yet the manager is not left in the
Unsubscribed state — sub_cmd holds the newly built rule. -/
theorem c5_failed_subscribe_not_unsubscribed :
    (Subscribe (chars ":1.42") ⟨none⟩
        ⟨fun _ => false, "org.freedesktop.DBus error text", [], []⟩ none
        (chars "/org/freedesktop/portal/desktop/request/1_42/T")).1 = .NFD_ERROR ∧
    (Subscribe (chars ":1.42") ⟨none⟩
        ⟨fun _ => false, "org.freedesktop.DBus error text", [], []⟩ none
        (chars "/org/freedesktop/portal/desktop/request/1_42/T")).2.1.sub_cmd =
      some (MakeResponseSubscriptionPath
        (chars "/org/freedesktop/portal/desktop/request/1_42/T") (chars ":1.42")) := by
  exact ⟨rfl, rfl⟩

/-- C5 as amended: subscribing over an existing subscription removes the
old rule first and unsubscribe errors are swallowed; a failed add-match
surfaces immediately with the bus's error text and registers no bus-level
rule, but the manager keeps the new rule in sub_cmd (it is not in the
Unsubscribed state); a successful subscribe registers the new rule. -/
theorem c5_subscribe_state (uniqueName : List Char) (h : SubscriptionState) (bus : Bus)
    (e : Option String) (handle_path : List Char) (oldRule : List Char)
    (hold : h.sub_cmd = some oldRule) :
    (Subscribe uniqueName h bus e handle_path).2.2.1.log =
      bus.log ++ [.removeMatch oldRule,
        .addMatch (MakeResponseSubscriptionPath handle_path uniqueName)] ∧
    ((Unsubscribe h bus e).2.2 = e ∧ (Unsubscribe h bus e).1.sub_cmd = none) ∧
    (bus.accepts (MakeResponseSubscriptionPath handle_path uniqueName) = false →
      (Subscribe uniqueName h bus e handle_path).1 = .NFD_ERROR ∧
      (Subscribe uniqueName h bus e handle_path).2.2.2 = some bus.failMessage ∧
      (Subscribe uniqueName h bus e handle_path).2.1.sub_cmd =
        some (MakeResponseSubscriptionPath handle_path uniqueName) ∧
      ¬ Unsubscribed (Subscribe uniqueName h bus e handle_path).2.1 ∧
      (Subscribe uniqueName h bus e handle_path).2.2.1.rules =
        bus.rules.erase oldRule) ∧
    (bus.accepts (MakeResponseSubscriptionPath handle_path uniqueName) = true →
      (Subscribe uniqueName h bus e handle_path).1 = .NFD_OKAY ∧
      (Subscribe uniqueName h bus e handle_path).2.2.2 = e ∧
      (Subscribe uniqueName h bus e handle_path).2.2.1.rules =
        bus.rules.erase oldRule ++
          [MakeResponseSubscriptionPath handle_path uniqueName]) := by
  have hsome : h.sub_cmd.isSome = true := by rw [hold]; rfl
  have hgetD : h.sub_cmd.getD [] = oldRule := by rw [hold]; rfl
  have hrep := Subscribe_replaces uniqueName h bus e handle_path oldRule hold
  refine ⟨hrep.1, ⟨rfl, rfl⟩, ?_, ?_⟩
  · intro hacc
    refine ⟨?_, ?_, hrep.2.1, fun hu => Option.noConfusion (hrep.2.1.symm.trans hu), ?_⟩
    · simp [Subscribe, Unsubscribe, hsome, hgetD, hacc]
    · simp [Subscribe, Unsubscribe, hsome, hgetD, hacc]
    · rw [hrep.2.2, hacc]
      rfl
  · intro hacc
    refine ⟨?_, ?_, ?_⟩
    · simp [Subscribe, Unsubscribe, hsome, hgetD, hacc]
    · simp [Subscribe, Unsubscribe, hsome, hgetD, hacc]
    · rw [hrep.2.2, hacc]
      rfl

/-- Witness for C5's amended statement: a rejecting bus and an accepting
bus, both on a manager already subscribed with an old rule. -/
theorem c5_subscribe_state_witness :
    (Subscribe (chars ":1.5") ⟨some (chars "OLD")⟩
        ⟨fun _ => false, "busfail", [chars "OLD"], []⟩ none (chars "/p")).1 =
      .NFD_ERROR ∧
    (Subscribe (chars ":1.5") ⟨some (chars "OLD")⟩
        ⟨fun _ => false, "busfail", [chars "OLD"], []⟩ none (chars "/p")).2.1.sub_cmd =
      some (MakeResponseSubscriptionPath (chars "/p") (chars ":1.5")) ∧
    (Subscribe (chars ":1.5") ⟨some (chars "OLD")⟩
        ⟨fun _ => false, "busfail", [chars "OLD"], []⟩ none (chars "/p")).2.2.1.log =
      [] ++ [.removeMatch (chars "OLD"),
        .addMatch (MakeResponseSubscriptionPath (chars "/p") (chars ":1.5"))] ∧
    (Subscribe (chars ":1.5") ⟨some (chars "OLD")⟩
        ⟨fun _ => true, "busfail", [chars "OLD"], []⟩ none (chars "/p")).1 =
      .NFD_OKAY := by
  refine ⟨((c5_subscribe_state (chars ":1.5") ⟨some (chars "OLD")⟩
      ⟨fun _ => false, "busfail", [chars "OLD"], []⟩ none (chars "/p")
      (chars "OLD") rfl).2.2.1 rfl).1,
    ((c5_subscribe_state (chars ":1.5") ⟨some (chars "OLD")⟩
      ⟨fun _ => false, "busfail", [chars "OLD"], []⟩ none (chars "/p")
      (chars "OLD") rfl).2.2.1 rfl).2.2.1,
    (c5_subscribe_state (chars ":1.5") ⟨some (chars "OLD")⟩
      ⟨fun _ => false, "busfail", [chars "OLD"], []⟩ none (chars "/p")
      (chars "OLD") rfl).1,
    ((c5_subscribe_state (chars ":1.5") ⟨some (chars "OLD")⟩
      ⟨fun _ => true, "busfail", [chars "OLD"], []⟩ none (chars "/p")
      (chars "OLD") rfl).2.2.2 rfl).1⟩

/-- C7: when the reply's object path equals the guessed handle path, the
manager and bus are untouched (no re-subscription call); when it differs,
exactly one Subscribe runs on the server-returned path: the old rule is
removed, one add-match for the new rule is issued, and the manager holds
the new rule. -/
theorem c7_reply_resubscription (uniqueName : List Char) (h : SubscriptionState)
    (bus : Bus) (e : Option String) (guessed path : List Char) (oldRule : List Char)
    (hold : h.sub_cmd = some oldRule) :
    (path = guessed →
      updateSubscriptionAfterReply uniqueName h bus e guessed [.objectPath path] =
        (.NFD_OKAY, h, bus, e)) ∧
    (path ≠ guessed →
      (updateSubscriptionAfterReply uniqueName h bus e guessed
          [.objectPath path]).2.2.1.log =
        bus.log ++ [.removeMatch oldRule,
          .addMatch (MakeResponseSubscriptionPath path uniqueName)] ∧
      (updateSubscriptionAfterReply uniqueName h bus e guessed
          [.objectPath path]).2.1.sub_cmd =
        some (MakeResponseSubscriptionPath path uniqueName) ∧
      (updateSubscriptionAfterReply uniqueName h bus e guessed
          [.objectPath path]).1 = .NFD_OKAY) := by
  constructor
  · intro heq
    subst heq
    simp [updateSubscriptionAfterReply]
  · intro hne
    rcases hS : Subscribe uniqueName h bus e path with ⟨r, h', bus', e'⟩
    have hred : updateSubscriptionAfterReply uniqueName h bus e guessed
        [.objectPath path] = (.NFD_OKAY, h', bus', e') := by
      simp [updateSubscriptionAfterReply, hne, hS]
    have hrep := Subscribe_replaces uniqueName h bus e path oldRule hold
    rw [hS] at hrep
    rw [hred]
    exact ⟨hrep.1, hrep.2.1, rfl⟩

/-- Witness for C7: a matching reply path changes nothing; a differing
reply path performs the one replacing re-subscription. -/
theorem c7_reply_resubscription_witness :
    updateSubscriptionAfterReply (chars ":1.5") ⟨some (chars "OLD")⟩
        ⟨fun _ => true, "busfail", [chars "OLD"], []⟩ none (chars "/g")
        [.objectPath (chars "/g")] =
      (.NFD_OKAY, ⟨some (chars "OLD")⟩,
        ⟨fun _ => true, "busfail", [chars "OLD"], []⟩, none) ∧
    (updateSubscriptionAfterReply (chars ":1.5") ⟨some (chars "OLD")⟩
        ⟨fun _ => true, "busfail", [chars "OLD"], []⟩ none (chars "/g")
        [.objectPath (chars "/h")]).2.2.1.log =
      [] ++ [.removeMatch (chars "OLD"),
        .addMatch (MakeResponseSubscriptionPath (chars "/h") (chars ":1.5"))] := by
  refine ⟨(c7_reply_resubscription (chars ":1.5") ⟨some (chars "OLD")⟩
      ⟨fun _ => true, "busfail", [chars "OLD"], []⟩ none (chars "/g") (chars "/g")
      (chars "OLD") rfl).1 rfl,
    ((c7_reply_resubscription (chars ":1.5") ⟨some (chars "OLD")⟩
      ⟨fun _ => true, "busfail", [chars "OLD"], []⟩ none (chars "/g") (chars "/h")
      (chars "OLD") rfl).2 (by decide)).1⟩

end NfdPortal
